import Mathlib

/-!
# Verification of nemo_customiser_k8_utils

Shallow embedding of the job-orchestration logic of
`nemo_microservices_utils.py` and `nemo_pipeline.py`, together with
theorems settling the behavioural claims about namespace provisioning,
deployment fallback, job polling, phase gating, metric deltas and metric
flattening.

Remote calls are modelled by their observable outcomes: a call that may
raise is an `Except String α` (the `String` being the exception message,
matched by Python's `str(e)` substring tests), HTTP responses are status
codes in `Nat`, and numeric metric values are exact rationals.
-/

namespace NemoK8Utils

/-- Python's `needle in haystack` substring test on strings. -/
def strContains (needle hay : String) : Bool :=
  decide (needle.toList <:+: hay.toList)

/-! ## Polling loops (`wait_for_customization`, `wait_for_evaluation`,
`wait_for_deployment`)

Each Python loop is `start = time(); while time() - start < timeout: ...`,
with `sleep(interval)` on every non-terminal poll.  We model wall-clock
time by the `elapsed` counter, advanced by `interval` at each sleep, and
count status fetches in `n`.  The status fetch is a function from the
fetch index to the outcome of the remote retrieve: `Except Unit String`
(an exception, or the job's status string).  The loop recursion is driven
by a fuel argument; `fuelOut` is a modelling artifact that the top-level
wrappers, which pass `timeout + 1` fuel, never produce (see
`waitCustGo_nonterminal`). -/

/-- Observable outcome of a customization/evaluation wait loop. -/
inductive WaitResult where
  /-- `status == "completed"`: the job object is returned. Carries the
  final status string and the number of fetches performed. -/
  | completedJob (status : String) (fetches : Nat)
  /-- `status == "failed"`: the loop raises a job-failure `Exception`. -/
  | jobFailedErr (fetches : Nat)
  /-- the `while` guard failed: `TimeoutError` is raised, with `elapsed`
  wall-clock seconds consumed. -/
  | timeoutErr (fetches : Nat) (elapsed : Nat)
  /-- the status fetch raised and no handler exists in the loop: the
  exception propagates out of the wait function. -/
  | fetchRaised (fetches : Nat)
  /-- fuel exhausted (never reached with the wrappers' fuel budget). -/
  | fuelOut
deriving DecidableEq, Repr

/-- Loop body of `wait_for_customization` (nemo_microservices_utils.py,
lines 338-363).  The source's `pending|created|running` branch and its
unknown-status branch both only log and `sleep(polling_interval)`, so both
are the final `else` here. -/
def waitCustGo (fetch : Nat → Except Unit String) (interval timeout : Nat) :
    Nat → Nat → Nat → WaitResult
  | fuel, elapsed, n =>
    if elapsed < timeout then
      match fuel with
      | 0 => .fuelOut
      | fuel' + 1 =>
        match fetch n with
        | .error _ => .fetchRaised (n + 1)
        | .ok s =>
          if s = "completed" then .completedJob s (n + 1)
          else if s = "failed" then .jobFailedErr (n + 1)
          else waitCustGo fetch interval timeout fuel' (elapsed + interval) (n + 1)
    else .timeoutErr n elapsed

/-- `wait_for_customization(job_id, polling_interval, timeout)`. -/
def wait_for_customization (fetch : Nat → Except Unit String)
    (interval timeout : Nat) : WaitResult :=
  waitCustGo fetch interval timeout (timeout + 1) 0 0

/-- Loop body of `wait_for_evaluation` (nemo_microservices_utils.py,
lines 482-504).  Structurally identical to `waitCustGo`; only the progress
logging differs in the source. -/
def waitEvalGo (fetch : Nat → Except Unit String) (interval timeout : Nat) :
    Nat → Nat → Nat → WaitResult
  | fuel, elapsed, n =>
    if elapsed < timeout then
      match fuel with
      | 0 => .fuelOut
      | fuel' + 1 =>
        match fetch n with
        | .error _ => .fetchRaised (n + 1)
        | .ok s =>
          if s = "completed" then .completedJob s (n + 1)
          else if s = "failed" then .jobFailedErr (n + 1)
          else waitEvalGo fetch interval timeout fuel' (elapsed + interval) (n + 1)
    else .timeoutErr n elapsed

/-- `wait_for_evaluation(job_id, polling_interval, timeout)`. -/
def wait_for_evaluation (fetch : Nat → Except Unit String)
    (interval timeout : Nat) : WaitResult :=
  waitEvalGo fetch interval timeout (timeout + 1) 0 0

/-- Observable outcome of `wait_for_deployment`. -/
inductive DeployWaitResult where
  /-- `deployment.deployed` was true: the deployment object is returned. -/
  | ready (fetches : Nat)
  /-- the `while` guard failed: `TimeoutError` is raised. -/
  | timeoutErr (fetches : Nat) (elapsed : Nat)
  /-- fuel exhausted (never reached with the wrapper's fuel budget). -/
  | fuelOut
deriving DecidableEq, Repr

/-- Loop body of `wait_for_deployment` (nemo_microservices_utils.py,
lines 251-283).  The whole body is wrapped in `try/except`: a fetch
exception is logged and followed by the same `sleep(10)` as a
not-yet-deployed poll, so the loop continues in both cases.  The fetch
yields the `deployment.deployed` flag. -/
def waitDeployGo (fetch : Nat → Except Unit Bool) (timeout : Nat) :
    Nat → Nat → Nat → DeployWaitResult
  | fuel, elapsed, n =>
    if elapsed < timeout then
      match fuel with
      | 0 => .fuelOut
      | fuel' + 1 =>
        match fetch n with
        | .ok deployed =>
          if deployed then .ready (n + 1)
          else waitDeployGo fetch timeout fuel' (elapsed + 10) (n + 1)
        | .error _ => waitDeployGo fetch timeout fuel' (elapsed + 10) (n + 1)
    else .timeoutErr n elapsed

/-- `wait_for_deployment(model_name, namespace, timeout)`. -/
def wait_for_deployment (fetch : Nat → Except Unit Bool)
    (timeout : Nat) : DeployWaitResult :=
  waitDeployGo fetch timeout (timeout + 1) 0 0

/-! ## `deploy_nim` (nemo_microservices_utils.py, lines 192-249)

The `try` block creates the deployment and, when `wait` is set, replaces
it by the result of `wait_for_deployment`.  The single `except` handler
checks `"500" in str(e)`; on a match it retrieves the existing deployment,
otherwise it falls through, and the trailing `return deployment` then
reads a local that was assigned only if the exception came from the wait
call (creation succeeded) — if creation itself raised, Python raises
`UnboundLocalError`. -/

/-- Outcome of a Python call: a return value, a propagated exception with
its message, or an `UnboundLocalError` from reading an unassigned local. -/
inductive PyOutcome (α : Type) where
  | ok (a : α)
  | raised (msg : String)
  | unboundLocalErr
deriving DecidableEq, Repr

/-- The `except Exception as e` handler of `deploy_nim`: `bound` is the
value the local `deployment` holds when the handler runs (`none` when the
creation call itself raised). -/
def deployExceptHandler {D : Type} (e : String) (bound : Option D)
    (retrieve : Except String D) : PyOutcome D :=
  if strContains "500" e then
    match retrieve with
    | .ok d => .ok d
    | .error e2 => .raised e2
  else
    match bound with
    | some d => .ok d
    | none => .unboundLocalErr

/-- `deploy_nim(...)`, parametrised by the outcomes of its three remote
calls: `create` (the deployment-creation request), `waitRes` (the result
of `wait_for_deployment`, consulted only when `wait` is set) and
`retrieve` (the retrieve-by-name fallback used by the handler). -/
def deploy_nim {D : Type} (create : Except String D) (wait : Bool)
    (waitRes : Except String D) (retrieve : Except String D) : PyOutcome D :=
  match create with
  | .error e => deployExceptHandler e none retrieve
  | .ok d =>
    if wait then
      match waitRes with
      | .ok d2 => .ok d2
      | .error e => deployExceptHandler e (some d) retrieve
    else .ok d

/-! ## `create_namespace` / `verify_namespace`
(nemo_microservices_utils.py, lines 50-96) -/

/-- The Data Store half of `create_namespace`: a POST whose status code is
checked against `(200, 201)` then `(409, 422)`. -/
def createNamespaceDataStore (dsStatus : Nat) : Except String Unit :=
  if dsStatus = 200 ∨ dsStatus = 201 then .ok ()
  else if dsStatus = 409 ∨ dsStatus = 422 then .ok ()
  else .error "Failed to create namespace in Data Store"

/-- `create_namespace(namespace)`: the Entity Store create is attempted
first; an exception whose message contains `"409"` or `"422"` is treated
as already-exists, any other exception is re-raised.  Then the Data Store
POST is issued and its status code classified. -/
def create_namespace (entityCreate : Except String Unit) (dsStatus : Nat) :
    Except String Unit :=
  match entityCreate with
  | .ok _ => createNamespaceDataStore dsStatus
  | .error e =>
    if strContains "409" e || strContains "422" e then
      createNamespaceDataStore dsStatus
    else .error e

/-- `verify_namespace(namespace)`: both queries sit inside one
`try/except` that returns `False` on any exception; otherwise the result
is `namespace_obj is not None and response.status_code in (200, 201)`. -/
def verify_namespace (entityRetrieve : Except String (Option Unit))
    (dsGet : Except String Nat) : Bool :=
  match entityRetrieve with
  | .error _ => false
  | .ok nsObj =>
    match dsGet with
    | .error _ => false
    | .ok status => nsObj.isSome && (status = 200 || status = 201)

/-! ## Metric comparison (nemo_pipeline.py, `run_comparison_phase`,
lines 285-291)

For every metric name of the base set that also appears in the custom
set, the loop computes `improvement = custom - base` and
`percentage = improvement / base * 100 if base != 0 else 0`.  Metric
dictionaries are modelled as association lists over exact rationals. -/

/-- The improvements loop of `run_comparison_phase`: one
`(name, improvement, percentage)` triple per base metric found in the
custom set. -/
def computeImprovements (baseMetrics customMetrics : List (String × ℚ)) :
    List (String × ℚ × ℚ) :=
  baseMetrics.filterMap fun (p : String × ℚ) =>
    match customMetrics.lookup p.1 with
    | some cv =>
      let improvement : ℚ := cv - p.2
      let percentage : ℚ := if p.2 ≠ 0 then improvement / p.2 * 100 else 0
      some (p.1, improvement, percentage)
    | none => none

/-! ## Metric extraction (nemo_microservices_utils.py,
`save_evaluation_results`, lines 538-549) -/

/-- One metric's result: its per-score values (`score.value`). -/
structure MetricResult where
  scores : List (String × ℚ)
deriving DecidableEq, Repr

/-- One task's result: its metrics. -/
structure TaskResult where
  metrics : List (String × MetricResult)
deriving DecidableEq, Repr

/-- The evaluation results summary: per-task results. -/
structure EvalResults where
  tasks : List (String × TaskResult)
deriving DecidableEq, Repr

/-- The metric-extraction part of `save_evaluation_results`: guarded by
`if results.tasks and 'qa' in results.tasks`, then
`if qa_task.metrics`, then for each metric with truthy `scores` the keys
`f"{metric_name}_{score_name}"` are inserted in iteration order. -/
def extractMetrics (results : EvalResults) : List (String × ℚ) :=
  if results.tasks.isEmpty then []
  else
    match results.tasks.lookup "qa" with
    | none => []
    | some qaTask =>
      if qaTask.metrics.isEmpty then []
      else
        qaTask.metrics.foldl
          (fun acc m =>
            if m.2.scores.isEmpty then acc
            else acc ++ m.2.scores.map fun sc => (m.1 ++ "_" ++ sc.1, sc.2))
          []

/-! ## Pipeline phase gating (nemo_pipeline.py, `main`, lines 358-432)

`main` threads a `success` flag through the phases.  Each phase body call
is guarded by its enable flag (and, from phase 2 on, by `success`); after
the deployment, dataset-preparation and customization phases an early
`return 1` fires when the phase failed **and** `--all` is not set.  The
customization phase communicates failure through `custom_model is None`
and does not touch `success`.  The phase functions' remote outcomes are
abstracted into an oracle. -/

/-- The phase-control flags of the argument parser (after parsing). -/
structure Args where
  deploy : Bool
  prepareDataset : Bool
  customize : Bool
  evaluate : Bool
  compare : Bool
  all : Bool
deriving DecidableEq, Repr

/-- Outcomes of the phase bodies, were they to run: whether
`run_deployment_phase` and `run_dataset_preparation_phase` return `True`,
and the `custom_model` returned by `run_customization_phase` (`none` on
failure). -/
structure PhaseOracle where
  deployOk : Bool
  prepOk : Bool
  customModel : Option Unit
deriving DecidableEq, Repr

/-- Which phase bodies executed, and the process exit code. -/
structure PipelineTrace where
  deployRan : Bool
  prepRan : Bool
  customizeRan : Bool
  evaluateRan : Bool
  compareRan : Bool
  exitCode : Nat
deriving DecidableEq, Repr

/-- `if args.all: args.deploy = True; ...` (lines 359-364). -/
def applyAllFlag (a : Args) : Args :=
  if a.all then
    { a with deploy := true, prepareDataset := true, customize := true,
             evaluate := true, compare := true }
  else a

/-- The phase-sequencing tail of `main` (lines 396-432): each phase runs
only when enabled and (from phase 2 on) `success` still holds; a failure
with `--all` unset returns exit code 1 immediately; otherwise the run
falls through to `return 0`. -/
def mainPipeline (a0 : Args) (o : PhaseOracle) : PipelineTrace :=
  let a := applyAllFlag a0
  let deployRan := a.deploy
  let success := if a.deploy then o.deployOk else true
  if a.deploy && !success && !a.all then
    ⟨deployRan, false, false, false, false, 1⟩
  else
    let prepRan := a.prepareDataset && success
    let success2 := if prepRan then o.prepOk else success
    if prepRan && !success2 && !a.all then
      ⟨deployRan, prepRan, false, false, false, 1⟩
    else
      let customizeRan := a.customize && success2
      let customModel := if customizeRan then o.customModel else none
      if customizeRan && customModel.isNone && !a.all then
        ⟨deployRan, prepRan, customizeRan, false, false, 1⟩
      else
        let evaluateRan := a.evaluate && success2
        let compareRan := a.compare && customModel.isSome
        ⟨deployRan, prepRan, customizeRan, evaluateRan, compareRan, 0⟩

/-! ## Helper lemmas -/

/-- The Data Store POST of `create_namespace` is accepted exactly for the
status codes 200, 201, 409 and 422. -/
theorem createNamespaceDataStore_ok (ds : Nat) :
    createNamespaceDataStore ds = Except.ok () ↔
      (ds = 200 ∨ ds = 201 ∨ ds = 409 ∨ ds = 422) := by
  unfold createNamespaceDataStore
  split_ifs with h1 h2 <;> simp <;> omega

/-! ## Claim theorems -/

/-- C7: `create_namespace` returns successfully exactly when the Entity
Store create either succeeds or raises a conflict-class message (one
containing "409" or "422") and the Data Store POST answers 200, 201, 409
or 422.  In particular a second call for the same name, answered with
conflict responses by both stores, succeeds with no duplicate-resource
error, while any other error from either store propagates. -/
theorem create_namespace_idempotent_conflicts :
    ∀ (entityCreate : Except String Unit) (dsStatus : Nat),
      create_namespace entityCreate dsStatus = Except.ok () ↔
        ((entityCreate = Except.ok () ∨
            ∃ e, entityCreate = Except.error e ∧
              (strContains "409" e || strContains "422" e) = true) ∧
          (dsStatus = 200 ∨ dsStatus = 201 ∨ dsStatus = 409 ∨ dsStatus = 422)) := by
  intro ec ds
  cases ec with
  | ok u =>
    cases u
    simp [create_namespace, createNamespaceDataStore_ok]
  | error e =>
    by_cases hconf : (strContains "409" e || strContains "422" e) = true
    · simp [create_namespace, hconf, createNamespaceDataStore_ok]
      intro _
      simpa using hconf
    · simp [create_namespace, hconf]
      intro h
      rcases h with h | h <;> simp [h] at hconf

/-- C8: `verify_namespace` returns `true` exactly when the Entity Store
retrieve yields a non-`None` object and the Data Store GET returns status
200 or 201; every exception from either query yields `false` (the
function never propagates an exception, it is total into `Bool`). -/
theorem verify_namespace_characterisation :
    ∀ (entityRetrieve : Except String (Option Unit)) (dsGet : Except String Nat),
      verify_namespace entityRetrieve dsGet = true ↔
        (entityRetrieve = Except.ok (some ()) ∧
          (dsGet = Except.ok 200 ∨ dsGet = Except.ok 201)) := by
  intro er dg
  cases er with
  | error e => simp [verify_namespace]
  | ok nsObj =>
    cases dg with
    | error e => simp [verify_namespace]
    | ok status =>
      cases nsObj with
      | none => simp [verify_namespace]
      | some u => cases u; simp [verify_namespace]

/-- C5: when the deployment-creation call raises an exception whose
message contains "500" (the code's conflict class for "deployment already
exists"), `deploy_nim` returns exactly the deployment the
retrieve-by-name fallback yields, instead of raising. -/
theorem deploy_nim_conflict_fallback {D : Type}
    (create waitRes retrieve : Except String D) (wait : Bool)
    (e : String) (d : D)
    (hc : create = Except.error e) (h500 : strContains "500" e = true)
    (hr : retrieve = Except.ok d) :
    deploy_nim create wait waitRes retrieve = PyOutcome.ok d := by
  subst hc hr
  simp [deploy_nim, deployExceptHandler, h500]

/-- C5 witness. -/
theorem deploy_nim_conflict_fallback_witness :
    deploy_nim (Except.error "HTTP 500: deployment exists") true
        (Except.ok 0) (Except.ok 7) = PyOutcome.ok 7 :=
  deploy_nim_conflict_fallback _ (Except.ok 0) _ true
    "HTTP 500: deployment exists" 7 rfl (by decide) rfl

/-- C6: when the deployment-creation call raises an exception whose
message does not contain "500", `deploy_nim` does not re-raise it: the
handler falls through to `return deployment` with the local never
assigned, so the call fails with `UnboundLocalError` instead of the
original creation error. -/
theorem deploy_nim_unbound_local {D : Type}
    (create waitRes retrieve : Except String D) (wait : Bool) (e : String)
    (hc : create = Except.error e) (h500 : strContains "500" e = false) :
    deploy_nim create wait waitRes retrieve = PyOutcome.unboundLocalErr := by
  subst hc
  simp [deploy_nim, deployExceptHandler, h500]

/-- C6 witness. -/
theorem deploy_nim_unbound_local_witness :
    deploy_nim (Except.error "404 not found") false
        (Except.ok (1 : Nat)) (Except.ok 2) = PyOutcome.unboundLocalErr :=
  deploy_nim_unbound_local _ (Except.ok 1) (Except.ok 2) false
    "404 not found" rfl (by decide)

/-- C2: a single poll of the customization or evaluation wait loop,
taken while the timeout budget is not yet exhausted, terminates the loop
with success exactly for the status "completed", raises the job-failure
error exactly for "failed", and for every other status string (including
"pending", "created", "running" and unrecognized ones) continues polling
without raising. -/
theorem poll_status_classification (fetch : Nat → Except Unit String)
    (interval timeout fuel elapsed n : Nat) (s : String)
    (hlt : elapsed < timeout) (hf : fetch n = Except.ok s) :
    (waitCustGo fetch interval timeout (fuel + 1) elapsed n =
      if s = "completed" then WaitResult.completedJob s (n + 1)
      else if s = "failed" then WaitResult.jobFailedErr (n + 1)
      else waitCustGo fetch interval timeout fuel (elapsed + interval) (n + 1)) ∧
    (waitEvalGo fetch interval timeout (fuel + 1) elapsed n =
      if s = "completed" then WaitResult.completedJob s (n + 1)
      else if s = "failed" then WaitResult.jobFailedErr (n + 1)
      else waitEvalGo fetch interval timeout fuel (elapsed + interval) (n + 1)) := by
  constructor
  · rw [waitCustGo, if_pos hlt, hf]
  · rw [waitEvalGo, if_pos hlt, hf]

/-- C2 witness: an unrecognized status continues the loop. -/
theorem poll_status_classification_witness :
    waitCustGo (fun _ => Except.ok "weird-status") 1 5 7 0 0 =
      waitCustGo (fun _ => Except.ok "weird-status") 1 5 6 1 1 ∧
    waitEvalGo (fun _ => Except.ok "weird-status") 1 5 7 0 0 =
      waitEvalGo (fun _ => Except.ok "weird-status") 1 5 6 1 1 := by
  have h := poll_status_classification (fun _ => Except.ok "weird-status")
    1 5 6 0 0 "weird-status" (by decide) rfl
  simpa using h

/-- C3 counterexample: a transient error in the customization wait loop
is not caught — with a status fetch that raises on the first poll the
wait aborts immediately with the propagated exception, rather than
continuing to poll as the claim asserts for every wait loop. -/
theorem wait_transient_error_counterexample :
    wait_for_customization (fun _ => Except.error ()) 1 5 =
      WaitResult.fetchRaised 1 := by decide

/-- C3 amended: only the deployment wait loop swallows a status-fetch
error — it sleeps 10 seconds (consuming timeout budget) and polls again —
whereas in the customization and evaluation wait loops a fetch error
propagates and aborts the wait. -/
theorem wait_transient_error_amended (fetchD : Nat → Except Unit Bool)
    (fetchC : Nat → Except Unit String) (interval timeout fuel elapsed n : Nat)
    (hlt : elapsed < timeout) (hD : fetchD n = Except.error ())
    (hC : fetchC n = Except.error ()) :
    (waitDeployGo fetchD timeout (fuel + 1) elapsed n =
      waitDeployGo fetchD timeout fuel (elapsed + 10) (n + 1)) ∧
    (waitCustGo fetchC interval timeout (fuel + 1) elapsed n =
      WaitResult.fetchRaised (n + 1)) ∧
    (waitEvalGo fetchC interval timeout (fuel + 1) elapsed n =
      WaitResult.fetchRaised (n + 1)) := by
  refine ⟨?_, ?_, ?_⟩
  · rw [waitDeployGo, if_pos hlt, hD]
  · rw [waitCustGo, if_pos hlt, hC]
  · rw [waitEvalGo, if_pos hlt, hC]

/-- C3 amended witness. -/
theorem wait_transient_error_amended_witness :
    (waitDeployGo (fun _ => Except.error ()) 25 4 0 0 =
      waitDeployGo (fun _ => Except.error ()) 25 3 10 1) ∧
    (waitCustGo (fun _ => Except.error ()) 1 5 4 0 0 =
      WaitResult.fetchRaised 1) ∧
    (waitEvalGo (fun _ => Except.error ()) 1 5 4 0 0 =
      WaitResult.fetchRaised 1) :=
  wait_transient_error_amended (fun _ => Except.error ())
    (fun _ => Except.error ()) 1 25 3 0 0 (by decide) rfl rfl

/-- The two status-classification loops are the same function: the
customization and evaluation wait loops differ only in logging. -/
theorem waitEvalGo_eq (fetch : Nat → Except Unit String)
    (interval timeout : Nat) :
    ∀ fuel elapsed n,
      waitEvalGo fetch interval timeout fuel elapsed n =
        waitCustGo fetch interval timeout fuel elapsed n := by
  intro fuel
  induction fuel with
  | zero =>
    intro elapsed n
    rw [waitEvalGo, waitCustGo]
  | succ fuel ih =>
    intro elapsed n
    rw [waitEvalGo, waitCustGo]
    by_cases hel : elapsed < timeout
    · rw [if_pos hel, if_pos hel]
      cases hfn : fetch n with
      | error u => simp [hfn]
      | ok s =>
        by_cases h1 : s = "completed"
        · simp [hfn, h1]
        · by_cases h2 : s = "failed"
          · simp [hfn, h1, h2]
          · simp [hfn, h1, h2, ih]
    · rw [if_neg hel, if_neg hel]

/-- A run of the customization wait loop against a job that never reports
a terminal status reaches the timeout exit after `k` further fetches,
having advanced the clock by `k` polling intervals past `timeout`. -/
theorem waitCustGo_nonterminal (fetch : Nat → Except Unit String)
    (interval timeout : Nat) (hpos : 1 ≤ interval)
    (hnt : ∀ m, ∃ s, fetch m = Except.ok s ∧ s ≠ "completed" ∧ s ≠ "failed") :
    ∀ fuel elapsed n, timeout < elapsed + fuel →
      ∃ k, waitCustGo fetch interval timeout fuel elapsed n =
          WaitResult.timeoutErr (n + k) (elapsed + k * interval) ∧
        timeout ≤ elapsed + k * interval ∧
        (k = 0 ∨ elapsed + (k - 1) * interval < timeout) := by
  intro fuel
  induction fuel with
  | zero =>
    intro elapsed n h
    refine ⟨0, ?_, by omega, Or.inl rfl⟩
    rw [waitCustGo, if_neg (by omega)]
    simp
  | succ fuel ih =>
    intro elapsed n h
    by_cases hel : elapsed < timeout
    · obtain ⟨s, hs, hs1, hs2⟩ := hnt n
      obtain ⟨k, hk, hk2, hk3⟩ := ih (elapsed + interval) (n + 1) (by omega)
      refine ⟨k + 1, ?_, ?_, Or.inr ?_⟩
      · rw [waitCustGo, if_pos hel, hs]
        simp only [if_neg hs1, if_neg hs2]
        rw [hk]
        congr 1 <;> ring
      · have harith : elapsed + interval + k * interval =
            elapsed + (k + 1) * interval := by ring
        rw [harith] at hk2
        exact hk2
      · simp only [Nat.add_sub_cancel]
        cases k with
        | zero => simpa using hel
        | succ k' =>
          rcases hk3 with hk0 | hlt3
          · exact absurd hk0 (Nat.succ_ne_zero k')
          · have harith : elapsed + interval + (k' + 1 - 1) * interval =
                elapsed + (k' + 1) * interval := by
              simp only [Nat.add_sub_cancel]; ring
            rw [harith] at hlt3
            exact hlt3
    · exact ⟨0, by rw [waitCustGo, if_neg hel]; simp, by omega, Or.inl rfl⟩

/-- C4: against a job that never reaches a terminal state, both the
customization and the evaluation wait loops raise `TimeoutError` only
once at least `timeout` seconds of wall clock have elapsed, after at most
`ceil(timeout / interval) + 1` status fetches. -/
theorem wait_timeout_bound (fetch : Nat → Except Unit String)
    (interval timeout : Nat) (hpos : 1 ≤ interval)
    (hnt : ∀ m, ∃ s, fetch m = Except.ok s ∧ s ≠ "completed" ∧ s ≠ "failed") :
    (∃ k e, wait_for_customization fetch interval timeout =
        WaitResult.timeoutErr k e ∧ timeout ≤ e ∧
        k ≤ (timeout + interval - 1) / interval + 1) ∧
    (∃ k e, wait_for_evaluation fetch interval timeout =
        WaitResult.timeoutErr k e ∧ timeout ≤ e ∧
        k ≤ (timeout + interval - 1) / interval + 1) := by
  obtain ⟨k, hk, hk2, hk3⟩ :=
    waitCustGo_nonterminal fetch interval timeout hpos hnt
      (timeout + 1) 0 0 (by omega)
  have hkb : k ≤ (timeout + interval - 1) / interval + 1 := by
    have hkd : k ≤ (timeout + interval - 1) / interval := by
      rw [Nat.le_div_iff_mul_le hpos]
      rcases hk3 with hk0 | hlt
      · subst hk0
        simp
      · cases k with
        | zero => simp
        | succ k' =>
          simp only [Nat.add_sub_cancel, Nat.zero_add] at hlt
          have h1 : (k' + 1) * interval = k' * interval + interval := by ring
          obtain ⟨K, hK⟩ : ∃ K, k' * interval = K := ⟨_, rfl⟩
          rw [h1, hK]
          rw [hK] at hlt
          omega
    omega
  refine ⟨⟨k, k * interval, ?_, by simpa using hk2, hkb⟩,
          ⟨k, k * interval, ?_, by simpa using hk2, hkb⟩⟩
  · unfold wait_for_customization
    simpa using hk
  · unfold wait_for_evaluation
    rw [waitEvalGo_eq]
    simpa using hk

/-- C4 witness: polling every 3 seconds against a 10-second budget. -/
theorem wait_timeout_bound_witness :
    (∃ k e, wait_for_customization (fun _ => Except.ok "running") 3 10 =
        WaitResult.timeoutErr k e ∧ 10 ≤ e ∧ k ≤ (10 + 3 - 1) / 3 + 1) ∧
    (∃ k e, wait_for_evaluation (fun _ => Except.ok "running") 3 10 =
        WaitResult.timeoutErr k e ∧ 10 ≤ e ∧ k ≤ (10 + 3 - 1) / 3 + 1) :=
  wait_timeout_bound (fun _ => Except.ok "running") 3 10 (by decide)
    (fun _ => ⟨"running", rfl, by decide, by decide⟩)

/-- C1 counterexample: with the run-all flag set (best-effort mode) and a
failing Deploy phase, none of the subsequently enabled phases executes —
PrepareDataset, Customize, Evaluate and Compare are all skipped by the
`success` gating, and the run ends with exit code 0 — refuting the claim
that in best-effort mode every enabled phase still attempts execution. -/
theorem best_effort_gating_counterexample :
    mainPipeline ⟨false, false, false, false, false, true⟩
        ⟨false, true, some ()⟩ =
      ⟨true, false, false, false, false, 0⟩ := by decide

/-- C1 amended: a Deploy failure prevents PrepareDataset, Customize,
Evaluate and Compare from executing in both modes; the run-all flag only
changes the outcome from an immediate exit with code 1 (strict mode) to
falling through to exit code 0 with every later phase skipped by the
`success` gating (best-effort mode). -/
theorem phase_gating_amended (a : Args) (o : PhaseOracle)
    (hdep : a.deploy = true) (hfail : o.deployOk = false) :
    (a.all = false →
      mainPipeline a o = ⟨true, false, false, false, false, 1⟩) ∧
    (a.all = true →
      mainPipeline a o = ⟨true, false, false, false, false, 0⟩) := by
  obtain ⟨ad, ap, ac, ae, aco, aall⟩ := a
  simp only at hdep
  subst hdep
  constructor
  · intro hall
    simp only at hall
    subst hall
    simp [mainPipeline, applyAllFlag, hfail]
  · intro hall
    simp only at hall
    subst hall
    simp [mainPipeline, applyAllFlag, hfail]

/-- C1 amended witness: all phases enabled, Deploy failing, in strict and
in best-effort mode. -/
theorem phase_gating_amended_witness :
    mainPipeline ⟨true, true, true, true, true, false⟩
        ⟨false, true, some ()⟩ = ⟨true, false, false, false, false, 1⟩ ∧
    mainPipeline ⟨true, true, true, true, true, true⟩
        ⟨false, true, some ()⟩ = ⟨true, false, false, false, false, 0⟩ :=
  ⟨(phase_gating_amended ⟨true, true, true, true, true, false⟩
      ⟨false, true, some ()⟩ rfl rfl).1 rfl,
   (phase_gating_amended ⟨true, true, true, true, true, true⟩
      ⟨false, true, some ()⟩ rfl rfl).2 rfl⟩

/-- C9: for every metric present in both sets the comparison reports the
absolute delta `custom - base` and the percentage delta
`delta / base * 100` when the base is nonzero, `0` when the base is
exactly zero; on base `{f1: 0.5, exact: 0.0}` and custom
`{f1: 0.7, exact: 0.2}` this yields `f1: +0.2 (+40%)` and `exact: +0.2`
with percentage `0`. -/
theorem metric_delta (baseMetrics customMetrics : List (String × ℚ))
    (name : String) (bv cv : ℚ)
    (hb : (name, bv) ∈ baseMetrics)
    (hc : customMetrics.lookup name = some cv) :
    ((name, cv - bv, if bv ≠ 0 then (cv - bv) / bv * 100 else 0) ∈
        computeImprovements baseMetrics customMetrics) ∧
    computeImprovements [("f1", 1/2), ("exact", 0)]
        [("f1", 7/10), ("exact", 1/5)] =
      [("f1", 1/5, 40), ("exact", 1/5, 0)] := by
  constructor
  · refine List.mem_filterMap.mpr ⟨(name, bv), hb, ?_⟩
    simp [hc]
  · simp [computeImprovements, List.filterMap, List.lookup]
    norm_num

/-- C9 witness. -/
theorem metric_delta_witness :
    (("a", (3 : ℚ) - 2, if (2 : ℚ) ≠ 0 then ((3 : ℚ) - 2) / 2 * 100 else 0) ∈
        computeImprovements [("a", 2)] [("a", 3)]) ∧
    computeImprovements [("f1", 1/2), ("exact", 0)]
        [("f1", 7/10), ("exact", 1/5)] =
      [("f1", 1/5, 40), ("exact", 1/5, 0)] :=
  metric_delta [("a", 2)] [("a", 3)] "a" 2 3 (by simp) rfl

/-- With every score list empty the metric-flattening fold leaves its
accumulator unchanged. -/
theorem extract_foldl_empty (ms : List (String × MetricResult))
    (hms : ∀ p ∈ ms, p.2.scores = []) (acc : List (String × ℚ)) :
    ms.foldl (fun acc m =>
        if m.2.scores.isEmpty then acc
        else acc ++ m.2.scores.map fun sc => (m.1 ++ "_" ++ sc.1, sc.2))
      acc = acc := by
  induction ms generalizing acc with
  | nil => rfl
  | cons m rest ih =>
    have h1 : m.2.scores = [] := hms m (List.mem_cons_self _ _)
    rw [List.foldl_cons]
    simp only [h1, List.isEmpty_nil, if_pos]
    exact ih (fun p hp => hms p (List.mem_cons_of_mem _ hp)) acc

/-- C10: the extraction flattens the nested result
`{tasks: {qa: {metrics: {f1: {scores: {default: 0.83}}}}}}` to
`{"f1_default": 0.83}`, a qa task with an empty metrics mapping
contributes no keys, and metrics whose score mappings are all empty
contribute no keys — no failure in either degenerate case. -/
theorem metric_flattening (ts : List (String × TaskResult))
    (ms : List (String × MetricResult))
    (hqa : ts.lookup "qa" = some ⟨[]⟩)
    (hms : ∀ p ∈ ms, p.2.scores = []) :
    extractMetrics ⟨[("qa", ⟨[("f1", ⟨[("default", 83/100)]⟩)]⟩)]⟩ =
      [("f1_default", 83/100)] ∧
    extractMetrics ⟨ts⟩ = [] ∧
    extractMetrics ⟨[("qa", ⟨ms⟩)]⟩ = [] := by
  refine ⟨by rfl, ?_, ?_⟩
  · by_cases he : ts.isEmpty
    · simp [extractMetrics, he]
    · simp [extractMetrics, he, hqa]
  · show (if ms.isEmpty then ([] : List (String × ℚ))
        else ms.foldl (fun acc m =>
          if m.2.scores.isEmpty then acc
          else acc ++ m.2.scores.map fun sc => (m.1 ++ "_" ++ sc.1, sc.2)) []) = []
    by_cases hm : ms.isEmpty
    · rw [if_pos hm]
    · rw [if_neg hm]
      exact extract_foldl_empty ms hms []

/-- C10 witness. -/
theorem metric_flattening_witness :
    extractMetrics ⟨[("qa", ⟨[("f1", ⟨[("default", 83/100)]⟩)]⟩)]⟩ =
      [("f1_default", 83/100)] ∧
    extractMetrics ⟨[("qa", ⟨[]⟩)]⟩ = [] ∧
    extractMetrics ⟨[("qa", ⟨[("x", ⟨[]⟩)]⟩)]⟩ = [] :=
  metric_flattening [("qa", ⟨[]⟩)] [("x", ⟨[]⟩)] rfl (by simp)

end NemoK8Utils
